import Mathlib

/-!
Verification development for the invoicing backend (Express + Supabase).
The TypeScript sources are shallowly embedded: JS numbers become exact
rationals, JSON-nullable columns become Option, fallible request handlers
become Except, and the blob store becomes an explicit list of object keys.
-/

namespace Invoicing

/-- Model of the JS function Math.round: rounds to the nearest integer,
with ties (fraction exactly one half) rounded toward positive infinity. -/
def jsRound (x : ℚ) : ℤ := ⌊x + 1/2⌋

/-- Rounding to the nearest integer with ties rounded away from zero,
as the specification words it. -/
def roundHalfAwayFromZero (x : ℚ) : ℤ :=
  if 0 ≤ x then ⌊x + 1/2⌋ else ⌈x - 1/2⌉

/-- A line item as validated by the zod ItemSchema in src/routes/invoices.ts:
a description, a quantity and a rate (JS numbers modelled as rationals). -/
structure LineItem where
  description : String
  quantity : ℚ
  rate : ℚ
deriving DecidableEq

/-- Invoice status: the invoices table constrains status to
pending, paid or void. -/
inductive InvStatus
  | pending
  | paid
  | void
deriving DecidableEq

/-- The invoice row as selected by the routes (nullable columns are Option).
The created_at column is kept as its ISO-8601 UTC timestamp string. -/
structure Invoice where
  id : String
  user_id : String
  amount : ℚ
  currency : String
  customer : String
  status : InvStatus
  items : Option (List LineItem)
  tax_rate : Option ℚ
  notes : Option String
  company_name : Option String
  company_address : Option String
  client_email : Option String
  client_address : Option String
  issue_date : Option String
  due_date : Option String
  created_at : String
deriving DecidableEq

/-- Embedding of the reduce in the create path of POST /api/invoices:
items.reduce (sum, it) => sum + it.quantity * it.rate, starting from 0. -/
def subtotalOf (items : List LineItem) : ℚ :=
  items.foldl (fun sum it => sum + it.quantity * it.rate) 0

/-- Amount computation inlined in POST /api/invoices (create path):
subtotal, then tax = subtotal * (taxRate / 100), then
Math.round applied to (subtotal + tax) * 100, giving cents. -/
def createAmountCents (items : List LineItem) (taxRate : ℚ) : ℤ :=
  let subtotal := subtotalOf items
  let tax := subtotal * (taxRate / 100)
  jsRound ((subtotal + tax) * 100)

/-- Model of the JS expression Number(x || 0) on a nullable number:
null becomes 0, a number stays itself (0 || 0 is again 0). -/
def jsNumOrZero (x : Option ℚ) : ℚ := x.getD 0

/-- Amount computation inlined in PATCH /api/invoices/:id: identical to the
create path except that the effective tax rate arrives as a nullable value
and is coerced through Number(effectiveTax || 0). -/
def patchAmountCents (items : List LineItem) (effectiveTax : Option ℚ) : ℤ :=
  let subtotal := subtotalOf items
  let tax := subtotal * (jsNumOrZero effectiveTax / 100)
  jsRound ((subtotal + tax) * 100)

lemma foldl_items_nonneg (l : List LineItem) (init : ℚ) (h0 : 0 ≤ init)
    (h : ∀ it ∈ l, 0 ≤ it.quantity * it.rate) :
    0 ≤ l.foldl (fun sum it => sum + it.quantity * it.rate) init := by
  induction l generalizing init with
  | nil => simpa using h0
  | cons a l ih =>
      simp only [List.foldl_cons]
      refine ih _ ?_ ?_
      · have := h a (by simp)
        linarith
      · intro it hit
        exact h it (by simp [hit])

lemma subtotalOf_nonneg (items : List LineItem)
    (hq : ∀ it ∈ items, 0 < it.quantity) (hr : ∀ it ∈ items, 0 ≤ it.rate) :
    0 ≤ subtotalOf items := by
  refine foldl_items_nonneg items 0 le_rfl ?_
  intro it hit
  exact mul_nonneg (le_of_lt (hq it hit)) (hr it hit)

lemma jsRound_eq_roundHalfAwayFromZero (x : ℚ) (hx : 0 ≤ x) :
    jsRound x = roundHalfAwayFromZero x := by
  simp [jsRound, roundHalfAwayFromZero, if_pos hx]

/-- C1: for non-empty item lists with positive quantities, non-negative rates
and a tax rate in [0, 100], the amount inlined in both the create and the
patch path equals round((sum of qty * rate) * (1 + t/100) * 100) in integer
minor units, rounded to nearest with halves away from zero, with the single
rounding applied at the cents boundary. -/
theorem c1_money_engine_total (items : List LineItem) (t : ℚ)
    (hne : items ≠ [])
    (hq : ∀ it ∈ items, 0 < it.quantity)
    (hr : ∀ it ∈ items, 0 ≤ it.rate)
    (ht0 : 0 ≤ t) (ht1 : t ≤ 100) :
    createAmountCents items t
        = roundHalfAwayFromZero (subtotalOf items * (1 + t / 100) * 100)
    ∧ patchAmountCents items (some t)
        = roundHalfAwayFromZero (subtotalOf items * (1 + t / 100) * 100) := by
  have hs : 0 ≤ subtotalOf items := subtotalOf_nonneg items hq hr
  have hdiv : 0 ≤ t / 100 := div_nonneg ht0 (by norm_num)
  have hfac : 0 ≤ 1 + t / 100 := by linarith
  have harg : 0 ≤ subtotalOf items * (1 + t / 100) * 100 :=
    mul_nonneg (mul_nonneg hs hfac) (by norm_num)
  have hrw : (subtotalOf items + subtotalOf items * (t / 100)) * 100
      = subtotalOf items * (1 + t / 100) * 100 := by ring
  constructor
  · show jsRound ((subtotalOf items + subtotalOf items * (t / 100)) * 100)
        = roundHalfAwayFromZero (subtotalOf items * (1 + t / 100) * 100)
    rw [hrw, jsRound_eq_roundHalfAwayFromZero _ harg]
  · show jsRound ((subtotalOf items + subtotalOf items * (jsNumOrZero (some t) / 100)) * 100)
        = roundHalfAwayFromZero (subtotalOf items * (1 + t / 100) * 100)
    simp only [jsNumOrZero, Option.getD_some]
    rw [hrw, jsRound_eq_roundHalfAwayFromZero _ harg]

/-- Witness for C1 at the example of the claim: one item with quantity 2 and
rate 10.5 at tax rate 10 gives 2310 cents. -/
theorem c1_money_engine_total_witness :
    createAmountCents [⟨"web design", 2, 21/2⟩] 10
        = roundHalfAwayFromZero (subtotalOf [⟨"web design", 2, 21/2⟩] * (1 + 10 / 100) * 100)
    ∧ createAmountCents [⟨"web design", 2, 21/2⟩] 10 = 2310 := by
  refine ⟨?_, ?_⟩
  · exact (c1_money_engine_total [⟨"web design", 2, 21/2⟩] 10
      (List.cons_ne_nil _ _)
      (by intro it hit; simp at hit; subst hit; norm_num)
      (by intro it hit; simp at hit; subst hit; norm_num)
      (by norm_num) (by norm_num)).1
  · show jsRound ((subtotalOf [⟨"web design", 2, 21/2⟩]
        + subtotalOf [⟨"web design", 2, 21/2⟩] * ((10 : ℚ) / 100)) * 100) = 2310
    simp only [subtotalOf, List.foldl_cons, List.foldl_nil, jsRound]
    norm_num

/-- The money-relevant fields of a PATCH /api/invoices/:id body after zod
parsing. Fields absent from the request body are none. The flag hasOther
records whether any of the other updatable fields (currency, customer,
notes, company and client fields, dates, template_kind) is present, which
only matters for the no-valid-fields check of the route. -/
structure PatchBody where
  amount : Option ℤ
  items : Option (List LineItem)
  tax_rate : Option ℚ
  hasOther : Bool
deriving DecidableEq

/-- The updates.items entry built by PATCH /api/invoices/:id: present only
when the body carries items, and null when the patched array is empty. The
outer Option is key presence in the updates object, the inner Option is the
stored value (none standing for SQL null). -/
def patchUpdItems (body : PatchBody) : Option (Option (List LineItem)) :=
  match body.items with
  | some arr => some (if arr.length > 0 then some arr else none)
  | none => none

/-- The updates.tax_rate entry built by PATCH /api/invoices/:id: present only
when the body carries tax_rate; when the body also changes items, the value
is the given rate for a non-empty items array and null for an empty one. -/
def patchUpdTax (body : PatchBody) : Option (Option ℚ) :=
  match body.tax_rate with
  | some t =>
      some (if body.items.isSome then
              (match body.items with
               | some arr => if arr.length > 0 then some t else none
               | none => some t)
            else some t)
  | none => none

/-- The effectiveItems local of the patch route: updates.items when that key
is present, else the existing items column. -/
def patchEffItems (existing : Invoice) (body : PatchBody) : Option (List LineItem) :=
  (patchUpdItems body).getD existing.items

/-- The effectiveTax local of the patch route: updates.tax_rate when that key
is present, else the existing tax_rate column. -/
def patchEffTax (existing : Invoice) (body : PatchBody) : Option ℚ :=
  (patchUpdTax body).getD existing.tax_rate

/-- The amountCents local of the patch route: recomputed from the effective
items and tax when the effective items form a non-empty array, otherwise the
body amount when present, otherwise undefined. -/
def patchAmountOpt (existing : Invoice) (body : PatchBody) : Option ℚ :=
  match patchEffItems existing body with
  | some arr =>
      if arr.length > 0
      then some ((patchAmountCents arr (patchEffTax existing body) : ℤ) : ℚ)
      else body.amount.map (fun a => (a : ℚ))
  | none => body.amount.map (fun a => (a : ℚ))

/-- The row produced by the update call of the patch route: the existing row
with the updates object merged over it (restricted to the modelled fields). -/
def patchApplied (existing : Invoice) (body : PatchBody) : Invoice :=
  { existing with
      items := patchEffItems existing body
      tax_rate := patchEffTax existing body
      amount := (patchAmountOpt existing body).getD existing.amount }

/-- Embedding of the body of PATCH /api/invoices/:id from the fetched
existing row onward: build the updates object, resolve effective items and
tax, decide the final amount, reject a non-positive final amount, reject an
empty updates object, and otherwise return the merged row. -/
def patchInvoice (existing : Invoice) (body : PatchBody) : Except String Invoice :=
  match patchAmountOpt existing body with
  | some a =>
      if 0 < a then Except.ok (patchApplied existing body)
      else Except.error "Invalid amount after update"
  | none =>
      if (patchUpdItems body).isSome || (patchUpdTax body).isSome || body.hasOther
      then Except.ok (patchApplied existing body)
      else Except.error "No valid fields to update"

/-- Embedding of POST /api/invoices/:id/pay: the route updates the row to
status paid unconditionally (filtered only by id and owner). -/
def markPaid (inv : Invoice) : Invoice := { inv with status := InvStatus.paid }

/-- Effective items as the claim words it: the patch value if provided,
else the existing items (a null items column counting as no items). -/
def claimEffectiveItems (existing : Invoice) (body : PatchBody) : List LineItem :=
  match body.items with
  | some arr => arr
  | none => existing.items.getD []

/-- Effective tax rate as the claim words it: the patch value if provided,
else the existing value. -/
def claimEffectiveTax (existing : Invoice) (body : PatchBody) : Option ℚ :=
  match body.tax_rate with
  | some t => some t
  | none => existing.tax_rate

lemma patchAmountCents_eq_create (arr : List LineItem) (t : Option ℚ) :
    patchAmountCents arr t = createAmountCents arr (t.getD 0) := rfl

lemma patchInvoice_ok_eq (existing : Invoice) (body : PatchBody) (inv2 : Invoice)
    (h : patchInvoice existing body = Except.ok inv2) :
    inv2 = patchApplied existing body := by
  unfold patchInvoice at h
  split at h
  · split at h
    · cases h; rfl
    · cases h
  · split at h
    · cases h; rfl
    · cases h

lemma patchEffItems_of_nonempty (existing : Invoice) (body : PatchBody)
    (hne : claimEffectiveItems existing body ≠ []) :
    patchEffItems existing body = some (claimEffectiveItems existing body) := by
  rcases hbi : body.items with _ | arr
  · rcases hei : existing.items with _ | l
    · exact absurd (by simp [claimEffectiveItems, hbi, hei]) hne
    · simp [patchEffItems, patchUpdItems, claimEffectiveItems, hbi, hei]
  · have harr : arr ≠ [] := fun h0 => hne (by simp [claimEffectiveItems, hbi, h0])
    simp [patchEffItems, patchUpdItems, claimEffectiveItems, hbi,
      List.length_pos.mpr harr]

lemma patchEffTax_of_nonempty (existing : Invoice) (body : PatchBody)
    (hne : claimEffectiveItems existing body ≠ []) :
    patchEffTax existing body = claimEffectiveTax existing body := by
  rcases hbt : body.tax_rate with _ | t
  · simp [patchEffTax, patchUpdTax, claimEffectiveTax, hbt]
  · rcases hbi : body.items with _ | arr
    · simp [patchEffTax, patchUpdTax, claimEffectiveTax, hbt, hbi]
    · have harr : arr ≠ [] := fun h0 => hne (by simp [claimEffectiveItems, hbi, h0])
      simp [patchEffTax, patchUpdTax, claimEffectiveTax, hbt, hbi,
        List.length_pos.mpr harr]

lemma patchAmountOpt_of_nonempty (existing : Invoice) (body : PatchBody)
    (hne : claimEffectiveItems existing body ≠ []) :
    patchAmountOpt existing body
      = some ((createAmountCents (claimEffectiveItems existing body)
          ((claimEffectiveTax existing body).getD 0) : ℤ) : ℚ) := by
  have hpos : 0 < (claimEffectiveItems existing body).length := List.length_pos.mpr hne
  rw [patchAmountOpt, patchEffItems_of_nonempty existing body hne]
  simp only [gt_iff_lt, hpos, if_true]
  rw [patchEffTax_of_nonempty existing body hne, patchAmountCents_eq_create]

lemma patchAmountOpt_of_empty (existing : Invoice) (body : PatchBody)
    (he : claimEffectiveItems existing body = []) :
    patchAmountOpt existing body = body.amount.map (fun a => (a : ℚ)) := by
  rcases hbi : body.items with _ | arr
  · rcases hei : existing.items with _ | l
    · simp [patchAmountOpt, patchEffItems, patchUpdItems, hbi, hei]
    · have hl : l = [] := by simpa [claimEffectiveItems, hbi, hei] using he
      subst hl
      simp [patchAmountOpt, patchEffItems, patchUpdItems, hbi, hei]
  · have harr : arr = [] := by simpa [claimEffectiveItems, hbi] using he
    subst harr
    simp [patchAmountOpt, patchEffItems, patchUpdItems, hbi]

/-- C2: whenever a patch succeeds, if the effective items (patch value if
provided, else existing) are non-empty, the resulting amount is recomputed
by the Money Engine from the effective items and effective tax rate, and any
amount supplied in the patch is ignored; if the effective items are empty,
the resulting amount is the amount of the patch when provided, else the
existing amount. -/
theorem c2_patch_amount_decision (existing : Invoice) (body : PatchBody) (inv2 : Invoice)
    (h : patchInvoice existing body = Except.ok inv2) :
    (claimEffectiveItems existing body ≠ [] →
        inv2.amount = ((createAmountCents (claimEffectiveItems existing body)
            ((claimEffectiveTax existing body).getD 0) : ℤ) : ℚ)
        ∧ ∀ (a : Option ℤ) (inv3 : Invoice),
            patchInvoice existing { body with amount := a } = Except.ok inv3 →
            inv3.amount = inv2.amount)
    ∧ (claimEffectiveItems existing body = [] →
        inv2.amount = (match body.amount with
          | some a => (a : ℚ)
          | none => existing.amount)) := by
  constructor
  · intro hne
    have hmain : ∀ (b : PatchBody), b.items = body.items → b.tax_rate = body.tax_rate →
        ∀ (inv4 : Invoice), patchInvoice existing b = Except.ok inv4 →
        inv4.amount = ((createAmountCents (claimEffectiveItems existing body)
            ((claimEffectiveTax existing body).getD 0) : ℤ) : ℚ) := by
      intro b hbi hbt inv4 h4
      have hneb : claimEffectiveItems existing b ≠ [] := by
        simpa [claimEffectiveItems, hbi] using hne
      have := patchInvoice_ok_eq existing b inv4 h4
      subst this
      show ((patchAmountOpt existing b).getD existing.amount) = _
      rw [patchAmountOpt_of_nonempty existing b hneb]
      simp [claimEffectiveItems, claimEffectiveTax, hbi, hbt]
    refine ⟨hmain body rfl rfl inv2 h, ?_⟩
    intro a inv3 h3
    rw [hmain { body with amount := a } rfl rfl inv3 h3,
      hmain body rfl rfl inv2 h]
  · intro he
    have := patchInvoice_ok_eq existing body inv2 h
    subst this
    show ((patchAmountOpt existing body).getD existing.amount) = _
    rw [patchAmountOpt_of_empty existing body he]
    rcases body.amount with _ | a <;> simp

/-- A concrete line item used by the concrete test rows below. -/
def exItem : LineItem := { description := "consulting", quantity := 1, rate := 100 }

/-- A concrete stored invoice with one line item and no tax rate. -/
def ex2 : Invoice :=
  { id := "11111111-2222-3333-4444-555555555555"
    user_id := "user-1"
    amount := 10000
    currency := "USD"
    customer := "Acme"
    status := InvStatus.pending
    items := some [exItem]
    tax_rate := none
    notes := none
    company_name := none
    company_address := none
    client_email := none
    client_address := none
    issue_date := none
    due_date := none
    created_at := "2024-05-01T00:00:00.000Z" }

/-- A concrete patch that supplies only an explicit amount. -/
def body2 : PatchBody := { amount := some 5, items := none, tax_rate := none, hasOther := false }

/-- The row the patch route persists for ex2 and body2. -/
def res2 : Invoice := patchApplied ex2 body2

lemma patchInvoice_ex2 : patchInvoice ex2 body2 = Except.ok res2 := by
  have hval : patchAmountOpt ex2 body2 = some ((10000 : ℤ) : ℚ) := by
    simp [patchAmountOpt, patchEffItems, patchUpdItems, patchEffTax, patchUpdTax,
      ex2, body2, exItem, patchAmountCents, subtotalOf, jsNumOrZero, jsRound]
    norm_num
  rw [patchInvoice, hval]
  norm_num [res2]

/-- Witness for C2: for the concrete invoice ex2 (one stored item of rate
100, no tax) patched with an explicit amount of 5, the persisted amount is
the recomputed engine value, not the supplied 5. -/
theorem c2_patch_amount_decision_witness :
    res2.amount = ((createAmountCents (claimEffectiveItems ex2 body2)
        ((claimEffectiveTax ex2 body2).getD 0) : ℤ) : ℚ) :=
  ((c2_patch_amount_decision ex2 body2 res2 patchInvoice_ex2).1
    (by simp [claimEffectiveItems, ex2, body2])).1

/-- A concrete stored invoice whose tax_rate column holds 8. -/
def ex3 : Invoice :=
  { ex2 with
      id := "99999999-aaaa-bbbb-cccc-dddddddddddd"
      tax_rate := some 8 }

/-- A concrete patch whose items field is the empty array and which carries
no tax_rate field. -/
def p3 : PatchBody := { amount := none, items := some [], tax_rate := none, hasOther := false }

/-- The row the patch route persists for ex3 and p3. -/
def res3 : Invoice := patchApplied ex3 p3

/-- Counterexample for C3: patching with an empty items array and no
tax_rate field clears the items but leaves the stored tax_rate of 8 in
place, because the route only writes updates.tax_rate when the body carries
a tax_rate key; the claim asserted the tax_rate is always cleared. -/
theorem c3_counterexample :
    patchInvoice ex3 p3 = Except.ok res3
    ∧ res3.items = none
    ∧ res3.tax_rate = some 8 := by
  refine ⟨?_, ?_, ?_⟩
  · rw [patchInvoice]
    have hval : patchAmountOpt ex3 p3 = none := by
      simp [patchAmountOpt, patchEffItems, patchUpdItems, ex3, ex2, p3]
    rw [hval]
    simp [patchUpdItems, p3, res3]
  · simp [res3, patchApplied, patchEffItems, patchUpdItems, p3]
  · simp [res3, patchApplied, patchEffTax, patchUpdTax, p3, ex3, ex2]

lemma patchEffItems_of_items_nil (existing : Invoice) (body : PatchBody)
    (hi : body.items = some []) : patchEffItems existing body = none := by
  simp [patchEffItems, patchUpdItems, hi]

lemma patchEffTax_of_items_nil (existing : Invoice) (body : PatchBody)
    (hi : body.items = some []) :
    patchEffTax existing body = (match body.tax_rate with
      | some _ => none
      | none => existing.tax_rate) := by
  rcases hbt : body.tax_rate with _ | t <;>
    simp [patchEffTax, patchUpdTax, hbt, hi]

/-- C3 as amended: patching with an empty items array always clears the
items column; the tax_rate column is cleared only when the same patch also
carries a tax_rate field, and otherwise retains the existing stored value. -/
theorem c3_amended_empty_items_patch (existing : Invoice) (body : PatchBody) (inv2 : Invoice)
    (hi : body.items = some [])
    (h : patchInvoice existing body = Except.ok inv2) :
    inv2.items = none
    ∧ inv2.tax_rate = (match body.tax_rate with
        | some _ => none
        | none => existing.tax_rate) := by
  have := patchInvoice_ok_eq existing body inv2 h
  subst this
  exact ⟨by simp [patchApplied, patchEffItems_of_items_nil existing body hi],
    by simp [patchApplied, patchEffTax_of_items_nil existing body hi]⟩

/-- A concrete patch carrying both an empty items array and a tax_rate. -/
def p3b : PatchBody := { amount := none, items := some [], tax_rate := some 5, hasOther := false }

/-- The row the patch route persists for ex3 and p3b. -/
def res3b : Invoice := patchApplied ex3 p3b

lemma patchInvoice_ex3b : patchInvoice ex3 p3b = Except.ok res3b := by
  rw [patchInvoice]
  have hval : patchAmountOpt ex3 p3b = none := by
    simp [patchAmountOpt, patchEffItems, patchUpdItems, ex3, ex2, p3b]
  rw [hval]
  simp [patchUpdItems, p3b, res3b]

/-- Witness for the amended C3: the concrete patch p3b (empty items plus a
tax_rate of 5) clears both the items and the tax_rate of ex3. -/
theorem c3_amended_empty_items_patch_witness :
    res3b.items = none ∧ res3b.tax_rate = none := by
  have := c3_amended_empty_items_patch ex3 p3b res3b rfl patchInvoice_ex3b
  simpa [p3b] using this

/-- A concrete stored invoice whose status is void. -/
def exVoid : Invoice :=
  { ex2 with
      id := "eeeeeeee-ffff-0000-1111-222222222222"
      status := InvStatus.void }

/-- Counterexample for C5: the pay route updates status to paid
unconditionally, so a snapshot whose status is void does transition to paid,
contradicting the claim that a void snapshot never later has status paid. -/
theorem c5_counterexample :
    exVoid.status = InvStatus.void ∧ (markPaid exVoid).status = InvStatus.paid :=
  ⟨rfl, rfl⟩

/-- C5 as amended: markPaid sets status to paid unconditionally (including
from void, so void to paid is a reachable transition), it is a no-op on an
already-paid snapshot, and it is idempotent. -/
theorem c5_amended_markPaid (inv : Invoice) :
    (markPaid inv).status = InvStatus.paid
    ∧ (inv.status = InvStatus.paid → markPaid inv = inv)
    ∧ markPaid (markPaid inv) = markPaid inv := by
  refine ⟨rfl, ?_, rfl⟩
  intro h
  cases inv
  simp_all [markPaid]

/-- A concrete stored invoice whose status is paid. -/
def exPaid : Invoice :=
  { ex2 with
      id := "33333333-4444-5555-6666-777777777777"
      status := InvStatus.paid }

/-- Witness for the amended C5 at an already-paid invoice: marking it paid
again returns the same snapshot with status paid. -/
theorem c5_amended_markPaid_witness :
    markPaid exPaid = exPaid ∧ (markPaid exPaid).status = InvStatus.paid :=
  ⟨(c5_amended_markPaid exPaid).2.1 rfl, (c5_amended_markPaid exPaid).1⟩

/-- The two error kinds the create route can report before persisting:
a zod schema failure (Invalid payload, 400) and the explicit amount check
(Invalid amount, 400). -/
inductive CreateError
  | validationFailed
  | invalidAmount
deriving DecidableEq

/-- The POST /api/invoices body as received before zod validation. JSON
numbers are rationals; absent optional fields are none. -/
structure CreateBody where
  amount : Option ℚ
  currency : String
  customer : String
  items : Option (List LineItem)
  tax_rate : Option ℚ
  notes : Option String
  company_name : Option String
  company_address : Option String
  client_email : Option String
  client_address : Option String
  issue_date : Option String
  due_date : Option String
deriving DecidableEq

/-- The zod constraint z.number().int().positive() on a JSON number. -/
def isPosInt (a : ℚ) : Prop := a.den = 1 ∧ 0 < a

instance (a : ℚ) : Decidable (isPosInt a) := by
  unfold isPosInt
  infer_instance

/-- The CreateInvoiceSchema checks of the create route: optional positive
integer amount, currency of length 3 to 10, customer of length 1 to 120,
optional items each with non-empty description, positive quantity and
non-negative rate, and optional tax_rate in [0, 100]. The email format
check on client_email is a string-shape detail left abstract. -/
def zodValidCreate (b : CreateBody) : Bool :=
  (match b.amount with
   | some a => decide (isPosInt a)
   | none => true)
  && decide (3 ≤ b.currency.length ∧ b.currency.length ≤ 10)
  && decide (1 ≤ b.customer.length ∧ b.customer.length ≤ 120)
  && (match b.items with
      | some l => l.all (fun it =>
          decide (1 ≤ it.description.length)
          && decide (0 < it.quantity) && decide (0 ≤ it.rate))
      | none => true)
  && (match b.tax_rate with
      | some t => decide (0 ≤ t ∧ t ≤ 100)
      | none => true)

/-- Embedding of POST /api/invoices: zod-validate, default items to the
empty array and tax_rate to 0, overwrite the amount with the engine result
when items are present, reject a missing or non-positive amount, and
otherwise build the pending row. The id and created_at are generated by the
database and arrive as parameters. The second component records whether the
inlined Money Engine computation ran. -/
def createInvoiceT (userId invId createdAt : String) (b : CreateBody) :
    Except CreateError Invoice × Bool :=
  if zodValidCreate b then
    let items := b.items.getD []
    let taxRate := b.tax_rate.getD 0
    let engineUsed : Bool := decide (0 < items.length)
    let amount : Option ℚ :=
      if 0 < items.length then some ((createAmountCents items taxRate : ℤ) : ℚ)
      else b.amount
    match amount with
    | none => (Except.error CreateError.invalidAmount, engineUsed)
    | some a =>
        if a ≤ 0 then (Except.error CreateError.invalidAmount, engineUsed)
        else
          (Except.ok
            { id := invId
              user_id := userId
              amount := a
              currency := b.currency
              customer := b.customer
              status := InvStatus.pending
              items := if 0 < items.length then some items else none
              tax_rate := if 0 < items.length then some taxRate else none
              notes := b.notes
              company_name := b.company_name
              company_address := b.company_address
              client_email := b.client_email
              client_address := b.client_address
              issue_date := b.issue_date
              due_date := b.due_date
              created_at := createdAt }, engineUsed)
  else (Except.error CreateError.validationFailed, false)

/-- A concrete create body with no items and an explicit amount of 0. -/
def b7 : CreateBody :=
  { amount := some 0
    currency := "USD"
    customer := "Acme"
    items := none
    tax_rate := none
    notes := none
    company_name := none
    company_address := none
    client_email := none
    client_address := none
    issue_date := none
    due_date := none }

/-- Counterexample for C7: a create body with empty items and a supplied
amount of 0 (not a positive integer) is rejected by the zod schema and the
route reports Invalid payload, not the Invalid amount error the claim
names; the amount check of the route is never reached. -/
theorem c7_counterexample :
    (createInvoiceT "user-1" "id-7" "2024-05-01T00:00:00.000Z" b7)
      = (Except.error CreateError.validationFailed, false)
    ∧ CreateError.validationFailed ≠ CreateError.invalidAmount := by
  refine ⟨?_, by decide⟩
  have hz : zodValidCreate b7 = false := by
    simp [zodValidCreate, b7, isPosInt]
  simp [createInvoiceT, hz]

/-- C7 as amended: for a create body whose items list is empty or absent,
a missing amount on an otherwise zod-valid body fails with the Invalid
amount error, while a supplied amount that is not a positive integer fails
already at zod validation with Invalid payload; in both cases nothing is
persisted and the Money Engine is not invoked. -/
theorem c7_amended_create_empty_items (userId invId createdAt : String) (b : CreateBody)
    (hempty : b.items = none ∨ b.items = some []) :
    (b.amount = none → zodValidCreate b = true →
        createInvoiceT userId invId createdAt b
          = (Except.error CreateError.invalidAmount, false))
    ∧ (∀ a : ℚ, b.amount = some a → ¬ isPosInt a →
        createInvoiceT userId invId createdAt b
          = (Except.error CreateError.validationFailed, false)) := by
  constructor
  · intro hba hz
    have hitems : b.items.getD [] = [] := by
      rcases hempty with h0 | h0 <;> simp [h0]
    rw [createInvoiceT, if_pos hz]
    simp [hitems, hba]
  · intro a hba hna
    have hz : zodValidCreate b = false := by
      simp [zodValidCreate, hba, hna]
    rw [createInvoiceT, if_neg (by simp [hz])]

/-- A concrete create body with no items and no amount. -/
def b7w : CreateBody :=
  { b7 with amount := none }

/-- Witness for the amended C7: the concrete body b7w (no items, no amount,
otherwise valid) fails with the Invalid amount error and the Money Engine
does not run. -/
theorem c7_amended_create_empty_items_witness :
    createInvoiceT "user-1" "id-7" "2024-05-01T00:00:00.000Z" b7w
      = (Except.error CreateError.invalidAmount, false) :=
  (c7_amended_create_empty_items "user-1" "id-7" "2024-05-01T00:00:00.000Z" b7w
    (Or.inl rfl)).1 rfl (by decide)

/-- The character class a-z0-9 of the safe regex after lower-casing. -/
def isSlugKeep (c : Char) : Bool :=
  (('a' ≤ c) && (c ≤ 'z')) || (('0' ≤ c) && (c ≤ '9'))

/-- Embedding of replace(non-alphanumeric runs, single hyphen): the Boolean
argument records whether the scan is inside a run that already emitted its
hyphen. -/
def squashRuns : List Char → Bool → List Char
  | [], _ => []
  | c :: cs, inRun =>
      if isSlugKeep c then c :: squashRuns cs false
      else if inRun then squashRuns cs true
      else '-' :: squashRuns cs true

/-- Embedding of replace(leading or trailing hyphen runs, empty string). -/
def trimDashes (l : List Char) : List Char :=
  ((l.dropWhile (fun c => c == '-')).reverse.dropWhile (fun c => c == '-')).reverse

/-- The safe helper of the pdf and share routes: lower-case (ASCII scope),
collapse non-alphanumeric runs to single hyphens, trim hyphens at both
ends, and keep at most the first 50 characters. -/
def slug (s : String) : String :=
  ⟨(trimDashes (squashRuns (s.data.map Char.toLower) false)).take 50⟩

/-- The date part of the storage filename: created_at is stored as an ISO
UTC timestamp, and toISOString().slice(0, 10) keeps its first ten
characters, the YYYY-MM-DD date. -/
def isoDate (s : String) : String := ⟨s.data.take 10⟩

/-- String(id).slice(0, 8), the id component of the filename. -/
def first8 (s : String) : String := ⟨s.data.take 8⟩

/-- The deterministic filename both the pdf and the share route build. -/
def storageFilename (inv : Invoice) : String :=
  "invoice-" ++ slug inv.customer ++ "-" ++ isoDate inv.created_at
    ++ "-" ++ first8 inv.id ++ ".pdf"

/-- The deterministic storage path: the owner folder plus the filename. -/
def storageKey (inv : Invoice) : String :=
  inv.user_id ++ "/" ++ storageFilename inv

/-- C6: the storage key is a function of user_id, customer, created_at and
id alone (so two renders of the same invoice agree), it follows the
documented template, slug maps the example "Acme & Co. Ltd!!" to
"acme-co-ltd", and slug output never exceeds 50 characters. -/
theorem c6_storage_key_deterministic (a b : Invoice)
    (h1 : a.user_id = b.user_id) (h2 : a.customer = b.customer)
    (h3 : a.created_at = b.created_at) (h4 : a.id = b.id) :
    storageKey a = storageKey b
    ∧ storageKey a = a.user_id ++ "/"
        ++ ("invoice-" ++ slug a.customer ++ "-"
            ++ isoDate a.created_at ++ "-" ++ first8 a.id ++ ".pdf")
    ∧ slug "Acme & Co. Ltd!!" = "acme-co-ltd"
    ∧ ∀ s : String, (slug s).length ≤ 50 := by
  refine ⟨?_, rfl, by decide, ?_⟩
  · rw [storageKey, storageKey, storageFilename, storageFilename, h1, h2, h3, h4]
  · intro s
    show (List.take 50 (trimDashes (squashRuns (s.data.map Char.toLower) false))).length ≤ 50
    rw [List.length_take]
    exact min_le_left _ _

/-- Witness for C6: ex2 and a copy of ex2 that differs in amount and status
share the storage key, and the slug example evaluates as claimed. -/
theorem c6_storage_key_deterministic_witness :
    storageKey ex2 = storageKey { ex2 with amount := 5, status := InvStatus.paid }
    ∧ slug "Acme & Co. Ltd!!" = "acme-co-ltd" :=
  ⟨(c6_storage_key_deterministic ex2 { ex2 with amount := 5, status := InvStatus.paid }
      rfl rfl rfl rfl).1,
    (c6_storage_key_deterministic ex2 { ex2 with amount := 5, status := InvStatus.paid }
      rfl rfl rfl rfl).2.2.1⟩

/-- The blob store bucket as the set of object paths it holds. -/
structure BlobStore where
  objects : List String
deriving DecidableEq

/-- Upload with upsert semantics: adding an existing path overwrites it. -/
def uploadUpsert (store : BlobStore) (path : String) : BlobStore :=
  if path ∈ store.objects then store else { objects := path :: store.objects }

/-- GET /api/invoices/:id/pdf always renders the document into a buffer and
uploads it with upsert, with no prior existence lookup; the second component
counts the render-and-upload operations the request performs. -/
def pdfEndpointRun (inv : Invoice) (store : BlobStore) : BlobStore × Nat :=
  (uploadUpsert store (storageKey inv), 1)

/-- GET /api/invoices/:id/share lists the owner folder for the filename
first and renders-and-uploads only when no object is found. -/
def shareEndpointRun (inv : Invoice) (store : BlobStore) : BlobStore × Nat :=
  if storageKey inv ∈ store.objects then (store, 0)
  else (uploadUpsert store (storageKey inv), 1)

/-- Counterexample for C4: two sequential requests to the direct PDF
download endpoint for the unchanged invoice ex2 against an empty store
perform two render-and-uploads, not one, because that endpoint never looks
the key up before rendering. -/
theorem c4_counterexample :
    (pdfEndpointRun ex2 { objects := [] }).2
      + (pdfEndpointRun ex2 (pdfEndpointRun ex2 { objects := [] }).1).2 = 2 := rfl

/-- C4 as amended: the share endpoint is the cached path - when the key is
absent the first request renders and uploads once and the second request is
a hit doing neither - while the direct PDF download endpoint performs a
render-and-upload on every request. -/
theorem c4_amended_share_caches (inv : Invoice) (store : BlobStore)
    (hmiss : storageKey inv ∉ store.objects) :
    (shareEndpointRun inv store).2 = 1
    ∧ (shareEndpointRun inv (shareEndpointRun inv store).1).2 = 0
    ∧ ∀ s : BlobStore, (pdfEndpointRun inv s).2 = 1 := by
  have h1 : shareEndpointRun inv store = (uploadUpsert store (storageKey inv), 1) := by
    rw [shareEndpointRun, if_neg hmiss]
  refine ⟨by rw [h1], ?_, fun s => rfl⟩
  rw [h1]
  show (shareEndpointRun inv (uploadUpsert store (storageKey inv))).2 = 0
  rw [uploadUpsert, if_neg hmiss, shareEndpointRun, if_pos (by simp)]

/-- Witness for the amended C4: for ex2 against the empty store, the first
share request renders once, the second is a cache hit, and a PDF download
request still renders. -/
theorem c4_amended_share_caches_witness :
    (shareEndpointRun ex2 { objects := [] }).2 = 1
    ∧ (shareEndpointRun ex2 (shareEndpointRun ex2 { objects := [] }).1).2 = 0
    ∧ ∀ s : BlobStore, (pdfEndpointRun ex2 s).2 = 1 :=
  c4_amended_share_caches ex2 { objects := [] } (by simp)

/-- The configuration values the modelled code reads from the process
environment. -/
structure Env where
  publicShareSecret : Option String
  port : Option String
deriving DecidableEq

/-- The getPublicSecret helper of the invoices and email routes: throws
when PUBLIC_SHARE_SECRET is unset or empty (an empty string is falsy). -/
def getPublicSecret (env : Env) : Except String String :=
  match env.publicShareSecret with
  | some s => if s = "" then Except.error "PUBLIC_SHARE_SECRET is not set" else Except.ok s
  | none => Except.error "PUBLIC_SHARE_SECRET is not set"

/-- An HMAC-SHA256 digest left abstract: the token is a deterministic
function of the key and the signed message. -/
structure HmacToken where
  key : String
  message : String
deriving DecidableEq

/-- The makePublicToken helper: fetch the secret (throwing when absent) and
sign userId colon invoiceId. It runs inside request handlers only. -/
def makePublicToken (env : Env) (userId invoiceId : String) : Except String HmacToken :=
  (getPublicSecret env).map (fun s => { key := s, message := userId ++ ":" ++ invoiceId })

/-- Embedding of the startup sequence of src/index.ts: dotenv.config, CORS
and parser wiring, route mounting and app.listen. No environment value is
validated at startup; the only env-derived outcome is the chosen port. -/
def startup (env : Env) : Except String String :=
  Except.ok (env.port.getD "4000")

/-- An environment with no sharing secret configured. -/
def envNoSecret : Env := { publicShareSecret := none, port := none }

/-- Counterexample for C8: with PUBLIC_SHARE_SECRET absent the process
starts up successfully, and the missing-secret error is raised only when a
sharing request first calls makePublicToken - the opposite of the claimed
raise-at-startup behavior. -/
theorem c8_counterexample :
    startup envNoSecret = Except.ok "4000"
    ∧ makePublicToken envNoSecret "user-1" "inv-1"
        = Except.error "PUBLIC_SHARE_SECRET is not set" :=
  ⟨rfl, rfl⟩

/-- C8 as amended: startup never validates the sharing secret and always
succeeds; the missing or empty secret error surfaces lazily inside the
sharing request path, and with a non-empty secret the token is produced. -/
theorem c8_amended_lazy_secret (env : Env) (u i : String) :
    startup env = Except.ok (env.port.getD "4000")
    ∧ (env.publicShareSecret = none →
        makePublicToken env u i = Except.error "PUBLIC_SHARE_SECRET is not set")
    ∧ ∀ s : String, env.publicShareSecret = some s → s ≠ "" →
        makePublicToken env u i = Except.ok { key := s, message := u ++ ":" ++ i } := by
  refine ⟨rfl, ?_, ?_⟩
  · intro h
    simp [makePublicToken, getPublicSecret, h, Except.map]
  · intro s hs hne
    simp [makePublicToken, getPublicSecret, hs, hne, Except.map]

/-- An environment with a non-empty sharing secret configured. -/
def envWithSecret : Env := { publicShareSecret := some "s3cret", port := none }

/-- Witness for the amended C8: with the concrete secret s3cret the token
for user-1 and inv-1 is produced, and with no secret the first sharing call
errors while startup still succeeds. -/
theorem c8_amended_lazy_secret_witness :
    makePublicToken envWithSecret "user-1" "inv-1"
      = Except.ok { key := "s3cret", message := "user-1" ++ ":" ++ "inv-1" }
    ∧ startup envNoSecret = Except.ok (envNoSecret.port.getD "4000")
    ∧ makePublicToken envNoSecret "user-1" "inv-1"
        = Except.error "PUBLIC_SHARE_SECRET is not set" :=
  ⟨(c8_amended_lazy_secret envWithSecret "user-1" "inv-1").2.2 "s3cret" rfl (by decide),
    (c8_amended_lazy_secret envNoSecret "user-1" "inv-1").1,
    (c8_amended_lazy_secret envNoSecret "user-1" "inv-1").2.1 rfl⟩

/-- Model of the JS expression x || dflt on a nullable string: null and the
empty string are falsy. -/
def jsStrOr (x : Option String) (dflt : String) : String :=
  match x with
  | some s => if s = "" then dflt else s
  | none => dflt

/-- Truthiness of a nullable string, as used by the conditional sections. -/
def jsStrTruthy (x : Option String) : Bool :=
  match x with
  | some s => s != ""
  | none => false

/-- One row of the items table as drawn by the pdf route: description,
quantity, rate and the line amount quantity times rate. -/
structure ItemRow where
  description : String
  qty : ℚ
  rate : ℚ
  lineAmount : ℚ
deriving DecidableEq

/-- The content drawn into the PDF, one constructor per drawn block, in
drawing order. Numeric cells carry the exact values handed to the currency
formatter; dates carry the underlying column values, since both routes
apply the same display formatting to them. -/
inductive DocSection
  | header (title brand : String)
  | metaId (invId : String)
  | metaDate (createdAt : String)
  | metaStatus (st : InvStatus)
  | fromBlock (name : String) (address : Option String)
  | billTo (customer : String) (email addr : Option String)
  | billToName (customer : String)
  | datesBlock (issue due : Option String)
  | itemsTable (rows : List ItemRow)
  | summaryCurrency (code : String)
  | summarySubtotal (v : ℚ)
  | summaryTax (rate v : ℚ)
  | summaryTotal (v : ℚ)
  | notesBlock (text : String)
  | footer (text : String)
deriving DecidableEq

/-- The row the pdf route draws for one line item. -/
def itemRowOf (it : LineItem) : ItemRow :=
  { description := it.description
    qty := it.quantity
    rate := it.rate
    lineAmount := it.quantity * it.rate }

/-- The upper-cased currency code both routes display. -/
def currencyCode (inv : Invoice) : String := inv.currency.toUpper

/-- Embedding of the document drawn by GET /api/invoices/:id/pdf: accent
header, meta block, From and Bill-To columns, optional dates block, items
table when items are present, summary panel with subtotal and tax lines for
itemized invoices and a total that is subtotal plus tax for itemized
invoices and amount over 100 otherwise, optional notes, footer. -/
def renderPdfDoc (inv : Invoice) (profileName : Option String) : List DocSection :=
  let brand := jsStrOr profileName "Ledgr"
  let hasItems : Bool :=
    match inv.items with
    | some l => decide (0 < l.length)
    | none => false
  let storedItems : List LineItem := inv.items.getD []
  let subtotal : ℚ := if hasItems then subtotalOf storedItems else 0
  let taxRate : ℚ := jsNumOrZero inv.tax_rate
  let tax : ℚ := subtotal * (taxRate / 100)
  let total : ℚ := if hasItems then subtotal + tax else inv.amount / 100
  [DocSection.header "INVOICE" brand,
   DocSection.metaId inv.id,
   DocSection.metaDate inv.created_at,
   DocSection.metaStatus inv.status,
   DocSection.fromBlock (jsStrOr inv.company_name brand) inv.company_address,
   DocSection.billTo inv.customer inv.client_email inv.client_address]
  ++ (if jsStrTruthy inv.issue_date || jsStrTruthy inv.due_date
      then [DocSection.datesBlock inv.issue_date inv.due_date] else [])
  ++ (if hasItems then [DocSection.itemsTable (storedItems.map itemRowOf)] else [])
  ++ [DocSection.summaryCurrency (currencyCode inv)]
  ++ (if hasItems then [DocSection.summarySubtotal subtotal,
                        DocSection.summaryTax taxRate tax] else [])
  ++ [DocSection.summaryTotal total]
  ++ (if jsStrTruthy inv.notes then [DocSection.notesBlock (inv.notes.getD "")] else [])
  ++ [DocSection.footer "Generated by Ledgr"]

/-- Embedding of the document drawn by the cache-miss branch of
GET /api/invoices/:id/share: header, meta block, a Bill-To name only, and a
minimal summary whose total is always the stored amount over 100; no items
table, no subtotal, no tax line, no notes. -/
def renderShareDoc (inv : Invoice) (profileName : Option String) : List DocSection :=
  let brand := jsStrOr profileName "Ledgr"
  [DocSection.header "INVOICE" brand,
   DocSection.metaId inv.id,
   DocSection.metaDate inv.created_at,
   DocSection.metaStatus inv.status,
   DocSection.billToName inv.customer,
   DocSection.summaryCurrency (currencyCode inv),
   DocSection.summaryTotal (inv.amount / 100),
   DocSection.footer "Generated by Ledgr"]

/-- C9: for an invoice with non-empty stored items, the cache-miss render of the share route differs from the direct download render: the share
document carries no items table, no subtotal and no tax line and always
shows amount over 100 as its total, while the download document carries the
items table and a total recomputed as subtotal plus tax from the stored
items and tax_rate. -/
theorem c9_share_vs_pdf_render (inv : Invoice) (profileName : Option String)
    (l : List LineItem) (hi : inv.items = some l) (hne : l ≠ []) :
    renderShareDoc inv profileName ≠ renderPdfDoc inv profileName
    ∧ (∀ rows, DocSection.itemsTable rows ∉ renderShareDoc inv profileName)
    ∧ (∀ v, DocSection.summarySubtotal v ∉ renderShareDoc inv profileName)
    ∧ (∀ r v, DocSection.summaryTax r v ∉ renderShareDoc inv profileName)
    ∧ DocSection.summaryTotal (inv.amount / 100) ∈ renderShareDoc inv profileName
    ∧ DocSection.itemsTable (l.map itemRowOf) ∈ renderPdfDoc inv profileName
    ∧ DocSection.summaryTotal
        (subtotalOf l + subtotalOf l * (jsNumOrZero inv.tax_rate / 100))
        ∈ renderPdfDoc inv profileName := by
  have hlen : 0 < l.length := List.length_pos.mpr hne
  have htable : DocSection.itemsTable (l.map itemRowOf) ∈ renderPdfDoc inv profileName := by
    simp [renderPdfDoc, hi, hlen]
  have hnotable : ∀ rows, DocSection.itemsTable rows ∉ renderShareDoc inv profileName := by
    intro rows
    simp [renderShareDoc]
  refine ⟨?_, hnotable, ?_, ?_, ?_, htable, ?_⟩
  · intro heq
    exact hnotable (l.map itemRowOf) (heq ▸ htable)
  · intro v
    simp [renderShareDoc]
  · intro r v
    simp [renderShareDoc]
  · simp [renderShareDoc]
  · simp [renderPdfDoc, hi, hlen]

/-- Witness for C9 at the concrete invoice ex2, whose stored items list is
the one-element list [exItem]. -/
theorem c9_share_vs_pdf_render_witness :
    renderShareDoc ex2 (some "Studio") ≠ renderPdfDoc ex2 (some "Studio")
    ∧ DocSection.summaryTotal (ex2.amount / 100) ∈ renderShareDoc ex2 (some "Studio") :=
  ⟨(c9_share_vs_pdf_render ex2 (some "Studio") [exItem] rfl (List.cons_ne_nil _ _)).1,
    (c9_share_vs_pdf_render ex2 (some "Studio") [exItem] rfl (List.cons_ne_nil _ _)).2.2.2.2.1⟩

/-- The payment_intents status values of the database schema. -/
inductive IntentStatus
  | pending
  | confirmed
  | cancelled
  | expired
deriving DecidableEq

/-- The state POST /api/crypto/mock/confirm touches for one intent and the
USD wallet of the owning user: the intent status and amount, the wallet balance,
the inserted wallet transaction amounts, and the status of the linked
invoice (none when the intent has no invoice). -/
structure CryptoState where
  intentStatus : IntentStatus
  amountCents : ℤ
  walletBalance : ℤ
  walletTxs : List ℤ
  invoiceStatus : Option InvStatus
deriving DecidableEq

/-- Embedding of POST /api/crypto/mock/confirm: an already-confirmed intent
short-circuits to success untouched; a pending intent inserts one credit
transaction, atomically increments the wallet balance, marks the intent
confirmed and marks any linked invoice paid; any other status is an error. -/
def mockConfirm (s : CryptoState) : Except String CryptoState :=
  match s.intentStatus with
  | IntentStatus.confirmed => Except.ok s
  | IntentStatus.pending =>
      Except.ok
        { s with
            intentStatus := IntentStatus.confirmed
            walletTxs := s.amountCents :: s.walletTxs
            walletBalance := s.walletBalance + s.amountCents
            invoiceStatus := s.invoiceStatus.map (fun _ => InvStatus.paid) }
  | IntentStatus.cancelled => Except.error "Cannot confirm intent in status cancelled"
  | IntentStatus.expired => Except.error "Cannot confirm intent in status expired"

/-- C10: confirming an already-confirmed intent succeeds and returns the
state unchanged - no wallet transaction is inserted and the balance is not
incremented - and after any successful confirmation a repeat confirmation
is a no-op, so each intent credits the wallet at most once. -/
theorem c10_mock_confirm_idempotent (s : CryptoState) :
    (s.intentStatus = IntentStatus.confirmed → mockConfirm s = Except.ok s)
    ∧ ∀ s2 : CryptoState, mockConfirm s = Except.ok s2 → mockConfirm s2 = Except.ok s2 := by
  constructor
  · intro h
    simp [mockConfirm, h]
  · intro s2 h
    rcases hst : s.intentStatus with _ | _ | _ | _ <;> rw [mockConfirm, hst] at h
    · cases h
      simp [mockConfirm]
    · cases h
      simp [mockConfirm, hst]
    · simp at h
    · simp at h

/-- A concrete already-confirmed intent state with one recorded credit. -/
def sConfirmed : CryptoState :=
  { intentStatus := IntentStatus.confirmed
    amountCents := 500
    walletBalance := 500
    walletTxs := [500]
    invoiceStatus := some InvStatus.paid }

/-- Witness for C10: confirming the concrete already-confirmed state again
returns it unchanged. -/
theorem c10_mock_confirm_idempotent_witness :
    mockConfirm sConfirmed = Except.ok sConfirmed :=
  (c10_mock_confirm_idempotent sConfirmed).1 rfl

end Invoicing
